import Mathlib

/-!
# Kafka ACL resource handler (`instaclustr/resource_kafka_acl.go`)

A shallow embedding of the Terraform resource handler for Kafka ACL entries:
the create / read / delete lifecycle operations, the state importer, and the
`&`-separated composite identifier they share.

Modelling conventions

* Go strings are Lean `String`s. The only separator the handler uses is the
  ASCII character `&`, so cutting a UTF-8 byte string at that byte and cutting
  the corresponding character sequence at that character give the same pieces.
* A Go `error` is represented by its message (`err.Error()`); `nil` is `none`.
  `fmt.Errorf` with `%s` / `%w` verbs is string concatenation.
* The resource data `d` is mutated in place in Go; here every operation returns
  the state of `d` after the call.
* The remote client is an arbitrary state machine: each method receives the
  current client state and returns its result with the next state. Every
  remote call an operation performs is appended, in order, to a call log.
* `log.Printf` lines have no effect on the state and are omitted.
-/

namespace Instaclustr

/-! ## Data model -/

/-- Modelled from the spec: the `KafkaAcl` struct is declared outside
`resource_kafka_acl.go`; section 3 of the specification gives its seven fields,
all strings, which is also how `parseResourceData` fills them. -/
structure KafkaAcl where
  Principal : String
  Host : String
  ResourceType : String
  ResourceName : String
  Operation : String
  PermissionType : String
  PatternType : String
  deriving DecidableEq, Repr

/-- Modelled from the spec: the cluster record returned by `ReadCluster` is
declared outside this file; the handler only reads its `ClusterStatus`. -/
structure Cluster where
  ClusterStatus : String
  deriving DecidableEq, Repr

/-- The state behind `KafkaAclResourceDataInterface`: the managed identifier
(`Id` / `SetId`) and the eight string attributes of the schema
(`Get` / `Set`). -/
structure ResourceData where
  id : String
  cluster_id : String
  principal : String
  host : String
  resource_type : String
  resource_name : String
  operation : String
  permission_type : String
  pattern_type : String
  deriving DecidableEq, Repr

namespace ResourceData

/-- The method `Id()`. -/
def Id (d : ResourceData) : String := d.id

/-- The method `SetId(value)`. -/
def SetId (d : ResourceData) (value : String) : ResourceData := { d with id := value }

/-- The call `Get(key).(string)` for the attributes declared in the schema. -/
def Get (d : ResourceData) (key : String) : String :=
  if key = "cluster_id" then d.cluster_id
  else if key = "principal" then d.principal
  else if key = "host" then d.host
  else if key = "resource_type" then d.resource_type
  else if key = "resource_name" then d.resource_name
  else if key = "operation" then d.operation
  else if key = "permission_type" then d.permission_type
  else if key = "pattern_type" then d.pattern_type
  else ""

/-- The method `Set(key, value)` for a string value; the handler discards the
returned error, and a key outside the schema stores nothing. -/
def Set (d : ResourceData) (key value : String) : ResourceData :=
  if key = "cluster_id" then { d with cluster_id := value }
  else if key = "principal" then { d with principal := value }
  else if key = "host" then { d with host := value }
  else if key = "resource_type" then { d with resource_type := value }
  else if key = "resource_name" then { d with resource_name := value }
  else if key = "operation" then { d with operation := value }
  else if key = "permission_type" then { d with permission_type := value }
  else if key = "pattern_type" then { d with pattern_type := value }
  else d

end ResourceData

/-- The request body handed to the remote client: the JSON document that
`json.Marshal` produces for an ACL record, represented by the record it
encodes. -/
structure JsonBytes where
  acl : KafkaAcl
  deriving DecidableEq, Repr

/-- The call `json.Marshal(acl)`: encoding a struct of string fields never
returns an error. -/
def jsonMarshal (acl : KafkaAcl) : Except String JsonBytes := .ok ⟨acl⟩

/-- One remote call, with its arguments. -/
inductive RemoteCall where
  | ReadCluster (clusterID : String)
  | ReadKafkaAcls (clusterID : String) (data : JsonBytes)
  | CreateKafkaAcl (clusterID : String) (data : JsonBytes)
  | DeleteKafkaAcl (clusterID : String) (data : JsonBytes)
  deriving DecidableEq, Repr

/-- The four methods of `KafkaAclAPIClientInterface` the handler calls, over a
client with internal state `σ`. -/
structure KafkaAclAPIClient (σ : Type) where
  ReadCluster : σ → String → Except String Cluster × σ
  ReadKafkaAcls : σ → String → JsonBytes → Except String (List KafkaAcl) × σ
  CreateKafkaAcl : σ → String → JsonBytes → Option String × σ
  DeleteKafkaAcl : σ → String → JsonBytes → Option String × σ

/-- What a lifecycle operation leaves behind: the returned error (`none` for
`nil`), the resource data, the client state, and the remote calls performed,
in order. -/
structure Outcome (σ : Type) where
  err : Option String
  d : ResourceData
  client : σ
  calls : List RemoteCall

/-! ## Identifier codec helpers -/

/-- Pieces of a character sequence cut at every occurrence of `sep`
(`strings.Split` for a one-character separator): always at least one piece,
and one more piece than there are separators. -/
def splitChars (sep : Char) : List Char → List (List Char)
  | [] => [[]]
  | c :: cs =>
    if c = sep then [] :: splitChars sep cs
    else
      match splitChars sep cs with
      | [] => [[c]]
      | seg :: rest => (c :: seg) :: rest

/-- The call `strings.Split(s, sep)` for a one-character separator. -/
def stringsSplit (s : String) (sep : Char) : List String :=
  (splitChars sep s.data).map String.mk

/-- Modelled from the spec: `stringInSlice` is a helper defined outside
`resource_kafka_acl.go`; it tells whether a string is a member of a slice. -/
def stringInSlice (a : String) : List String → Bool
  | [] => false
  | b :: rest => if b = a then true else stringInSlice a rest

/-- The identifier built in `doResourceKafkaAclCreate`:
`fmt.Sprintf("%s&%s&%s&%s&%s&%s&%s&%s", cluster_id, acl.Principal, ...)`. -/
def sprintfKafkaAclId (cluster_id : String) (acl : KafkaAcl) : String :=
  cluster_id ++ "&" ++ acl.Principal ++ "&" ++ acl.Host ++ "&" ++ acl.ResourceType ++ "&" ++
    acl.ResourceName ++ "&" ++ acl.Operation ++ "&" ++ acl.PermissionType ++ "&" ++
    acl.PatternType

/-! ## The handler -/

/-- The function `parseResourceData`. -/
def parseResourceData (d : ResourceData) : String × KafkaAcl :=
  let cluster_id := d.Get "cluster_id"
  (cluster_id,
    { Principal := d.Get "principal"
      Host := d.Get "host"
      ResourceType := d.Get "resource_type"
      ResourceName := d.Get "resource_name"
      Operation := d.Get "operation"
      PermissionType := d.Get "permission_type"
      PatternType := d.Get "pattern_type" })

/-- The function `doResourceKafkaAclCreate`. -/
def doResourceKafkaAclCreate {σ : Type} (client : KafkaAclAPIClient σ)
    (d : ResourceData) (s : σ) : Outcome σ :=
  let cluster_id := (parseResourceData d).1
  let acl := (parseResourceData d).2
  -- Cluster has to reach running state first
  let r1 := client.ReadCluster s cluster_id
  let log1 := [RemoteCall.ReadCluster cluster_id]
  match r1.1 with
  | .error err =>
    ⟨some ("[Error] Error in getting the status of the cluster: " ++ err), d, r1.2, log1⟩
  | .ok cluster =>
    if cluster.ClusterStatus ≠ "RUNNING" then
      ⟨some ("[Error] Cluster " ++ cluster_id ++ " is not RUNNING. Currently in " ++
        cluster.ClusterStatus ++ " state"), d, r1.2, log1⟩
    else
      match jsonMarshal acl with
      | .error err =>
        ⟨some ("[Error] Error creating kafka ACL creation request: " ++ err), d, r1.2, log1⟩
      | .ok jsonStr =>
        let r2 := client.ReadKafkaAcls r1.2 cluster_id jsonStr
        let log2 := log1 ++ [RemoteCall.ReadKafkaAcls cluster_id jsonStr]
        match r2.1 with
        | .error err => ⟨some ("[Error] Error reading kafka ACL: " ++ err), d, r2.2, log2⟩
        | .ok remoteAcls =>
          if remoteAcls.length > 0 then
            ⟨some ("[Error] Error creating kafka ACL: the resource already exists, " ++
              "use terraform import instead."), d, r2.2, log2⟩
          else
            let r3 := client.CreateKafkaAcl r2.2 cluster_id jsonStr
            let log3 := log2 ++ [RemoteCall.CreateKafkaAcl cluster_id jsonStr]
            match r3.1 with
            | some err => ⟨some ("[Error] Error creating kafka ACL: " ++ err), d, r3.2, log3⟩
            | none => ⟨none, d.SetId (sprintfKafkaAclId cluster_id acl), r3.2, log3⟩

/-- The function `removeKafkaAclResource`. -/
def removeKafkaAclResource (d : ResourceData) : ResourceData :=
  ((((((((d.SetId "").Set "cluster_id" "").Set "principal" "").Set "host" "").Set
    "resource_type" "").Set "resource_name" "").Set "operation" "").Set
    "permission_type" "").Set "pattern_type" ""

/-- The function `doResourceKafkaAclRead`. -/
def doResourceKafkaAclRead {σ : Type} (client : KafkaAclAPIClient σ)
    (d : ResourceData) (s : σ) : Outcome σ :=
  let cluster_id := (parseResourceData d).1
  let data := (parseResourceData d).2
  -- Cluster has to reach running state first
  let r1 := client.ReadCluster s cluster_id
  let log1 := [RemoteCall.ReadCluster cluster_id]
  match r1.1 with
  | .error err =>
    ⟨some ("[Error] Error in getting the status of the cluster: " ++ err), d, r1.2, log1⟩
  | .ok cluster =>
    if cluster.ClusterStatus ≠ "RUNNING" then
      ⟨some ("[Error] Cluster " ++ cluster_id ++ " is not RUNNING. Currently in " ++
        cluster.ClusterStatus ++ " state"), d, r1.2, log1⟩
    else
      match jsonMarshal data with
      | .error err =>
        ⟨some ("[Error] Error creating kafka ACL read request: " ++ err), d, r1.2, log1⟩
      | .ok jsonStr =>
        let r2 := client.ReadKafkaAcls r1.2 cluster_id jsonStr
        let log2 := log1 ++ [RemoteCall.ReadKafkaAcls cluster_id jsonStr]
        match r2.1 with
        | .error err => ⟨some ("[Error] Error reading kafka ACL: " ++ err), d, r2.2, log2⟩
        | .ok remoteAcls =>
          if remoteAcls.length = 0 then ⟨none, removeKafkaAclResource d, r2.2, log2⟩
          else ⟨none, d, r2.2, log2⟩

/-- The function `doResourceKafkaAclDelete`. -/
def doResourceKafkaAclDelete {σ : Type} (client : KafkaAclAPIClient σ)
    (d : ResourceData) (s : σ) : Outcome σ :=
  let cluster_id := (parseResourceData d).1
  let acl := (parseResourceData d).2
  match jsonMarshal acl with
  | .error err => ⟨some ("[Error] Error creating kafka ACL delete request: " ++ err), d, s, []⟩
  | .ok jsonStr =>
    let r := client.DeleteKafkaAcl s cluster_id jsonStr
    let log := [RemoteCall.DeleteKafkaAcl cluster_id jsonStr]
    match r.1 with
    | some err => ⟨some ("[Error] Error deleting Kafka ACL: " ++ err), d, r.2, log⟩
    | none => ⟨none, removeKafkaAclResource d, r.2, log⟩

/-- What `resourceKafkaAclStateImport` returns and leaves behind: the returned
slice (`none` for `nil`), the returned error, and the resource data after the
call. A returned slice holds the pointer `d`, that is, the data after the
call. -/
structure ImportOutcome where
  result : Option (List ResourceData)
  err : Option String
  d : ResourceData
  deriving DecidableEq, Repr

/-- The function `resourceKafkaAclStateImport`. The `%q` verb of the error
message (Go's quoted-string rendering of the identifier) is the parameter
`quote`; the `meta` argument is not used by the function. An index `idParts[i]`
is in range because the guard has established eight parts. -/
def resourceKafkaAclStateImport (quote : String → String) (d : ResourceData) : ImportOutcome :=
  let idParts := stringsSplit d.Id '&'
  if idParts.length ≠ 8 || stringInSlice "" idParts then
    ⟨none, some ("[Error] Unexpected format of ID (" ++ quote d.Id ++
      "), expected <CLUSTER-ID>&<PRINCIPAL>&<HOST>&<RESOURCE-TYPE>&<RESOURCE-NAME>&" ++
      "<OPERATION>&<PERMISSION-TYPE>&<PATTERN-TYPE>"), d⟩
  else
    let d0 := d.SetId d.Id
    let d1 := d0.Set "cluster_id" (idParts.getD 0 "")
    let d2 := d1.Set "principal" (idParts.getD 1 "")
    let d3 := d2.Set "host" (idParts.getD 2 "")
    let d4 := d3.Set "resource_type" (idParts.getD 3 "")
    let d5 := d4.Set "resource_name" (idParts.getD 4 "")
    let d6 := d5.Set "operation" (idParts.getD 5 "")
    let d7 := d6.Set "permission_type" (idParts.getD 6 "")
    let d8 := d7.Set "pattern_type" (idParts.getD 7 "")
    ⟨some [d8], none, d8⟩

/-! ## Concrete clients and inputs used in examples -/

/-- A stateless client that answers every call with fixed results. -/
def constClient (status : Except String Cluster) (acls : Except String (List KafkaAcl))
    (create delete : Option String) : KafkaAclAPIClient Unit where
  ReadCluster := fun s _ => (status, s)
  ReadKafkaAcls := fun s _ _ => (acls, s)
  CreateKafkaAcl := fun s _ _ => (create, s)
  DeleteKafkaAcl := fun s _ _ => (delete, s)

/-- The ACL of the specification's example. -/
def bobAcl : KafkaAcl :=
  { Principal := "User:bob", Host := "*", ResourceType := "Topic", ResourceName := "orders"
    Operation := "Read", PermissionType := "Allow", PatternType := "LITERAL" }

/-- The declared resource of the specification's example, before creation. -/
def bobData : ResourceData :=
  { id := "", cluster_id := "c1", principal := "User:bob", host := "*"
    resource_type := "Topic", resource_name := "orders", operation := "Read"
    permission_type := "Allow", pattern_type := "LITERAL" }

/-- The stored resource of the specification's example, after creation. -/
def bobStored : ResourceData :=
  { bobData with id := "c1&User:bob&*&Topic&orders&Read&Allow&LITERAL" }

/-- Number of remote calls an operation performed. -/
def Outcome.callCount {σ : Type} (o : Outcome σ) : Nat := o.calls.length

/-- The eight values an identifier is built from, in identifier order. -/
def idValues (cluster_id : String) (acl : KafkaAcl) : List String :=
  [cluster_id, acl.Principal, acl.Host, acl.ResourceType, acl.ResourceName, acl.Operation,
    acl.PermissionType, acl.PatternType]

/-- The resource data holding identifier `id`, cluster `cluster_id` and the
fields of `acl`. -/
def dataOf (id cluster_id : String) (acl : KafkaAcl) : ResourceData :=
  ⟨id, cluster_id, acl.Principal, acl.Host, acl.ResourceType, acl.ResourceName, acl.Operation,
    acl.PermissionType, acl.PatternType⟩

/-- The resource data with the identifier and every field empty. -/
def clearedData : ResourceData := ⟨"", "", "", "", "", "", "", "", ""⟩

/-! ## Lemmas on splitting -/

theorem splitChars_ne_nil (sep : Char) (l : List Char) : splitChars sep l ≠ [] := by
  cases l with
  | nil => simp [splitChars]
  | cons c cs =>
    unfold splitChars
    split
    · simp
    · split <;> simp

theorem splitChars_length (sep : Char) (l : List Char) :
    (splitChars sep l).length = l.count sep + 1 := by
  induction l with
  | nil => simp [splitChars]
  | cons c cs ih =>
    unfold splitChars
    by_cases h : c = sep
    · subst h
      simp [ih]
    · have h2 : ¬ sep = c := fun e => h e.symm
      rw [if_neg h]
      cases hs : splitChars sep cs with
      | nil => exact absurd hs (splitChars_ne_nil sep cs)
      | cons seg rest =>
        rw [hs] at ih
        simpa [List.count_cons, h, h2] using ih

theorem splitChars_of_not_mem (sep : Char) (a : List Char) (h : sep ∉ a) :
    splitChars sep a = [a] := by
  induction a with
  | nil => simp [splitChars]
  | cons c cs ih =>
    have hc : c ≠ sep := fun e => h (by simp [e])
    have hcs : sep ∉ cs := fun e => h (List.mem_cons_of_mem _ e)
    unfold splitChars
    rw [if_neg hc, ih hcs]

theorem splitChars_append (sep : Char) (a b : List Char) (h : sep ∉ a) :
    splitChars sep (a ++ sep :: b) = a :: splitChars sep b := by
  induction a with
  | nil => simp [splitChars]
  | cons c cs ih =>
    have hc : c ≠ sep := fun e => h (by simp [e])
    have hcs : sep ∉ cs := fun e => h (List.mem_cons_of_mem _ e)
    have step : ∀ l, splitChars sep (c :: l) =
        (match splitChars sep l with
          | [] => [[c]]
          | seg :: rest => (c :: seg) :: rest) := by
      intro l
      rw [splitChars, if_neg hc]
    rw [List.cons_append, step, ih hcs]

theorem stringInSlice_iff (a : String) (l : List String) :
    stringInSlice a l = true ↔ a ∈ l := by
  induction l with
  | nil => simp [stringInSlice]
  | cons b rest ih =>
    unfold stringInSlice
    by_cases h : b = a
    · simp [h]
    · have h2 : ¬ a = b := fun e => h e.symm
      simp [h, h2, ih]

theorem sprintfKafkaAclId_data (c : String) (acl : KafkaAcl) :
    (sprintfKafkaAclId c acl).data =
      c.data ++ '&' :: (acl.Principal.data ++ '&' :: (acl.Host.data ++ '&' ::
        (acl.ResourceType.data ++ '&' :: (acl.ResourceName.data ++ '&' ::
          (acl.Operation.data ++ '&' :: (acl.PermissionType.data ++ '&' ::
            acl.PatternType.data)))))) := by
  simp [sprintfKafkaAclId, String.data_append]

theorem stringsSplit_length (s : String) (sep : Char) :
    (stringsSplit s sep).length = s.data.count sep + 1 := by
  simp [stringsSplit, splitChars_length]

theorem nil_mem_splitChars_iff (s : String) (sep : Char) :
    "" ∈ stringsSplit s sep ↔ [] ∈ splitChars sep s.data := by
  simp only [stringsSplit, List.mem_map]
  constructor
  · rintro ⟨l, hl, e⟩
    have : l = [] := by
      have := congrArg String.data e
      simpa using this
    exact this ▸ hl
  · intro h
    exact ⟨[], h, rfl⟩

/-- Splitting an identifier whose eight values are free of the separator gives
back the eight values. -/
theorem stringsSplit_sprintfKafkaAclId (c : String) (acl : KafkaAcl)
    (h0 : '&' ∉ c.data) (h1 : '&' ∉ acl.Principal.data) (h2 : '&' ∉ acl.Host.data)
    (h3 : '&' ∉ acl.ResourceType.data) (h4 : '&' ∉ acl.ResourceName.data)
    (h5 : '&' ∉ acl.Operation.data) (h6 : '&' ∉ acl.PermissionType.data)
    (h7 : '&' ∉ acl.PatternType.data) :
    stringsSplit (sprintfKafkaAclId c acl) '&' =
      [c, acl.Principal, acl.Host, acl.ResourceType, acl.ResourceName, acl.Operation,
        acl.PermissionType, acl.PatternType] := by
  unfold stringsSplit
  rw [sprintfKafkaAclId_data, splitChars_append _ _ _ h0, splitChars_append _ _ _ h1,
    splitChars_append _ _ _ h2, splitChars_append _ _ _ h3, splitChars_append _ _ _ h4,
    splitChars_append _ _ _ h5, splitChars_append _ _ _ h6, splitChars_of_not_mem _ _ h7]
  rfl

/-- The number of pieces of an identifier: eight plus one for every separator
inside a value. -/
theorem stringsSplit_sprintfKafkaAclId_length (c : String) (acl : KafkaAcl) :
    (stringsSplit (sprintfKafkaAclId c acl) '&').length =
      8 + (c.data.count '&' + acl.Principal.data.count '&' + acl.Host.data.count '&' +
        acl.ResourceType.data.count '&' + acl.ResourceName.data.count '&' +
        acl.Operation.data.count '&' + acl.PermissionType.data.count '&' +
        acl.PatternType.data.count '&') := by
  rw [stringsSplit_length, sprintfKafkaAclId_data]
  simp only [List.count_append, List.count_cons_self]
  omega

/-! ## Lemmas on the importer -/

/-- The importer's guard, as a proposition. -/
theorem importGuard_iff (idParts : List String) :
    ((idParts.length ≠ 8 || stringInSlice "" idParts) = true) ↔
      (idParts.length ≠ 8 ∨ "" ∈ idParts) := by
  simp [stringInSlice_iff]

theorem resourceKafkaAclStateImport_of_guard (quote : String → String) (d : ResourceData)
    (h : (stringsSplit d.id '&').length ≠ 8 ∨ "" ∈ stringsSplit d.id '&') :
    ∃ msg, resourceKafkaAclStateImport quote d = ⟨none, some msg, d⟩ := by
  have hg := (importGuard_iff (stringsSplit d.id '&')).2 h
  unfold resourceKafkaAclStateImport
  simp only [ResourceData.Id]
  rw [if_pos hg]
  exact ⟨_, rfl⟩

theorem resourceKafkaAclStateImport_of_parts (quote : String → String) (d : ResourceData)
    (a0 a1 a2 a3 a4 a5 a6 a7 : String)
    (hs : stringsSplit d.id '&' = [a0, a1, a2, a3, a4, a5, a6, a7])
    (hne : "" ∉ [a0, a1, a2, a3, a4, a5, a6, a7]) :
    resourceKafkaAclStateImport quote d =
      ⟨some [⟨d.id, a0, a1, a2, a3, a4, a5, a6, a7⟩], none,
        ⟨d.id, a0, a1, a2, a3, a4, a5, a6, a7⟩⟩ := by
  have hg : ¬ ((stringsSplit d.id '&').length ≠ 8 ∨ "" ∈ stringsSplit d.id '&') := by
    rw [hs]
    simpa using hne
  have hg2 := fun e => hg ((importGuard_iff (stringsSplit d.id '&')).1 e)
  unfold resourceKafkaAclStateImport
  simp only [ResourceData.Id]
  rw [if_neg hg2, hs]
  rfl

theorem resourceKafkaAclStateImport_sprintf_ok (quote : String → String) (d : ResourceData)
    (c : String) (acl : KafkaAcl) (hne : "" ∉ idValues c acl)
    (hamp : ∀ v ∈ idValues c acl, '&' ∉ v.data) :
    resourceKafkaAclStateImport quote (d.SetId (sprintfKafkaAclId c acl)) =
      ⟨some [dataOf (sprintfKafkaAclId c acl) c acl], none,
        dataOf (sprintfKafkaAclId c acl) c acl⟩ := by
  have hs := stringsSplit_sprintfKafkaAclId c acl
    (hamp _ (by simp [idValues])) (hamp _ (by simp [idValues])) (hamp _ (by simp [idValues]))
    (hamp _ (by simp [idValues])) (hamp _ (by simp [idValues])) (hamp _ (by simp [idValues]))
    (hamp _ (by simp [idValues])) (hamp _ (by simp [idValues]))
  exact resourceKafkaAclStateImport_of_parts quote (d.SetId (sprintfKafkaAclId c acl))
    _ _ _ _ _ _ _ _ hs hne

theorem resourceKafkaAclStateImport_sprintf_err (quote : String → String) (d : ResourceData)
    (c : String) (acl : KafkaAcl)
    (hbad : ∃ v ∈ idValues c acl, v = "" ∨ '&' ∈ v.data) :
    ∃ msg, resourceKafkaAclStateImport quote (d.SetId (sprintfKafkaAclId c acl)) =
      ⟨none, some msg, d.SetId (sprintfKafkaAclId c acl)⟩ := by
  apply resourceKafkaAclStateImport_of_guard
  show (stringsSplit (sprintfKafkaAclId c acl) '&').length ≠ 8 ∨
    "" ∈ stringsSplit (sprintfKafkaAclId c acl) '&'
  by_cases hamp : ∀ v ∈ idValues c acl, '&' ∉ v.data
  · right
    have hs := stringsSplit_sprintfKafkaAclId c acl
      (hamp _ (by simp [idValues])) (hamp _ (by simp [idValues])) (hamp _ (by simp [idValues]))
      (hamp _ (by simp [idValues])) (hamp _ (by simp [idValues])) (hamp _ (by simp [idValues]))
      (hamp _ (by simp [idValues])) (hamp _ (by simp [idValues]))
    rw [hs]
    obtain ⟨v, hv, hv2⟩ := hbad
    rcases hv2 with h | h
    · exact h ▸ hv
    · exact absurd h (hamp v hv)
  · left
    rw [stringsSplit_sprintfKafkaAclId_length]
    intro hlen
    apply hamp
    intro v hv
    rw [← List.count_eq_zero]
    simp only [idValues, List.mem_cons, List.mem_singleton, List.not_mem_nil, or_false] at hv
    rcases hv with h | h | h | h | h | h | h | h <;> subst h <;> omega

/-! ## Lemmas on the lifecycle operations -/

theorem parseResourceData_eq (d : ResourceData) :
    parseResourceData d =
      (d.cluster_id, ⟨d.principal, d.host, d.resource_type, d.resource_name, d.operation,
        d.permission_type, d.pattern_type⟩) := rfl

theorem removeKafkaAclResource_eq (d : ResourceData) :
    removeKafkaAclResource d = clearedData := rfl

/-- Every path of Create: the data is either untouched (error) or only gets
its identifier set (success), and the calls are a prefix of the fixed sequence
status check, existence query, creation. -/
theorem doResourceKafkaAclCreate_shape {σ : Type} (client : KafkaAclAPIClient σ)
    (d : ResourceData) (s : σ) :
    (((doResourceKafkaAclCreate client d s).err ≠ none ∧
        (doResourceKafkaAclCreate client d s).d = d) ∨
      ((doResourceKafkaAclCreate client d s).err = none ∧
        (doResourceKafkaAclCreate client d s).calls.length = 3)) ∧
    (doResourceKafkaAclCreate client d s).calls ≠ [] ∧
    (doResourceKafkaAclCreate client d s).calls <+:
      [RemoteCall.ReadCluster d.cluster_id,
        RemoteCall.ReadKafkaAcls d.cluster_id ⟨(parseResourceData d).2⟩,
        RemoteCall.CreateKafkaAcl d.cluster_id ⟨(parseResourceData d).2⟩] := by
  unfold doResourceKafkaAclCreate
  simp only [parseResourceData_eq, jsonMarshal]
  split
  · simp [List.prefix_iff_eq_take]
  · split
    · simp [List.prefix_iff_eq_take]
    · split
      · simp [List.prefix_iff_eq_take]
      · split
        · simp [List.prefix_iff_eq_take]
        · split <;> simp [List.prefix_iff_eq_take]

/-- Every path of Read: the data is untouched on error, and the calls are a
prefix of the fixed sequence status check, existence query. -/
theorem doResourceKafkaAclRead_shape {σ : Type} (client : KafkaAclAPIClient σ)
    (d : ResourceData) (s : σ) :
    ((doResourceKafkaAclRead client d s).err ≠ none →
        (doResourceKafkaAclRead client d s).d = d) ∧
    (doResourceKafkaAclRead client d s).calls ≠ [] ∧
    (doResourceKafkaAclRead client d s).calls <+:
      [RemoteCall.ReadCluster d.cluster_id,
        RemoteCall.ReadKafkaAcls d.cluster_id ⟨(parseResourceData d).2⟩] := by
  unfold doResourceKafkaAclRead
  simp only [parseResourceData_eq, jsonMarshal]
  split
  · simp [List.prefix_iff_eq_take]
  · split
    · simp [List.prefix_iff_eq_take]
    · split
      · simp [List.prefix_iff_eq_take]
      · split <;> simp [List.prefix_iff_eq_take]

/-- Every path of Delete: the data is untouched on error, and exactly the one
deletion call is made. -/
theorem doResourceKafkaAclDelete_shape {σ : Type} (client : KafkaAclAPIClient σ)
    (d : ResourceData) (s : σ) :
    ((doResourceKafkaAclDelete client d s).err ≠ none →
        (doResourceKafkaAclDelete client d s).d = d) ∧
    (doResourceKafkaAclDelete client d s).calls =
      [RemoteCall.DeleteKafkaAcl d.cluster_id ⟨(parseResourceData d).2⟩] := by
  unfold doResourceKafkaAclDelete
  simp only [parseResourceData_eq, jsonMarshal]
  split <;> simp

/-! ## The identifier codec -/

/-- C1: round trip of the identifier codec. For eight non-empty values none of
which contains `&`, importing the identifier that Create builds from them (the
values joined by `&`, in order) succeeds: no error, one resource data returned,
whose eight fields are the original values and whose identifier is the one
imported. -/
theorem import_roundtrip (quote : String → String) (d : ResourceData)
    (cluster_id principal host resource_type resource_name operation permission_type
      pattern_type : String)
    (hne : "" ∉ [cluster_id, principal, host, resource_type, resource_name, operation,
      permission_type, pattern_type])
    (hamp : ∀ v ∈ [cluster_id, principal, host, resource_type, resource_name, operation,
      permission_type, pattern_type], '&' ∉ v.data) :
    resourceKafkaAclStateImport quote
        (d.SetId (sprintfKafkaAclId cluster_id
          ⟨principal, host, resource_type, resource_name, operation, permission_type,
            pattern_type⟩)) =
      { result := some [⟨cluster_id ++ "&" ++ principal ++ "&" ++ host ++ "&" ++
            resource_type ++ "&" ++ resource_name ++ "&" ++ operation ++ "&" ++
            permission_type ++ "&" ++ pattern_type,
          cluster_id, principal, host, resource_type, resource_name, operation,
          permission_type, pattern_type⟩]
        err := none
        d := ⟨cluster_id ++ "&" ++ principal ++ "&" ++ host ++ "&" ++
            resource_type ++ "&" ++ resource_name ++ "&" ++ operation ++ "&" ++
            permission_type ++ "&" ++ pattern_type,
          cluster_id, principal, host, resource_type, resource_name, operation,
          permission_type, pattern_type⟩ } :=
  resourceKafkaAclStateImport_sprintf_ok quote d cluster_id
    ⟨principal, host, resource_type, resource_name, operation, permission_type, pattern_type⟩
    hne hamp

/-- C1 at the tuple (c1, User:bob, *, Topic, orders, Read, Allow, LITERAL). -/
theorem import_roundtrip_witness :
    resourceKafkaAclStateImport id
        (clearedData.SetId (sprintfKafkaAclId "c1"
          ⟨"User:bob", "*", "Topic", "orders", "Read", "Allow", "LITERAL"⟩)) =
      { result := some [⟨"c1" ++ "&" ++ "User:bob" ++ "&" ++ "*" ++ "&" ++ "Topic" ++ "&" ++
            "orders" ++ "&" ++ "Read" ++ "&" ++ "Allow" ++ "&" ++ "LITERAL",
          "c1", "User:bob", "*", "Topic", "orders", "Read", "Allow", "LITERAL"⟩]
        err := none
        d := ⟨"c1" ++ "&" ++ "User:bob" ++ "&" ++ "*" ++ "&" ++ "Topic" ++ "&" ++
            "orders" ++ "&" ++ "Read" ++ "&" ++ "Allow" ++ "&" ++ "LITERAL",
          "c1", "User:bob", "*", "Topic", "orders", "Read", "Allow", "LITERAL"⟩ } :=
  import_roundtrip id clearedData "c1" "User:bob" "*" "Topic" "orders" "Read" "Allow" "LITERAL"
    (by decide) (by decide)

/-- C2: the importer fails exactly on malformed identifiers. It returns an
error, and then no resource data, exactly when cutting the identifier at `&`
does not give eight pieces or gives an empty piece; otherwise it returns resource
data and no error. The seven-piece identifier
`c1&User:bob&*&Topic&orders&Read&Allow` is rejected. -/
theorem import_fails_iff_malformed (quote : String → String) (d : ResourceData) :
    (((resourceKafkaAclStateImport quote d).err ≠ none ∧
        (resourceKafkaAclStateImport quote d).result = none) ↔
      ((stringsSplit d.id '&').length ≠ 8 ∨ "" ∈ stringsSplit d.id '&')) ∧
    (((resourceKafkaAclStateImport quote d).err = none ∧
        (resourceKafkaAclStateImport quote d).result ≠ none) ↔
      ¬ ((stringsSplit d.id '&').length ≠ 8 ∨ "" ∈ stringsSplit d.id '&')) ∧
    ((resourceKafkaAclStateImport quote
        (d.SetId "c1&User:bob&*&Topic&orders&Read&Allow")).err ≠ none ∧
      (resourceKafkaAclStateImport quote
        (d.SetId "c1&User:bob&*&Topic&orders&Read&Allow")).result = none) := by
  have key : ∀ e : ResourceData,
      ((stringsSplit e.id '&').length ≠ 8 ∨ "" ∈ stringsSplit e.id '&') →
      (resourceKafkaAclStateImport quote e).err ≠ none ∧
        (resourceKafkaAclStateImport quote e).result = none := by
    intro e h
    obtain ⟨msg, hm⟩ := resourceKafkaAclStateImport_of_guard quote e h
    rw [hm]
    simp
  have key2 : ¬ ((stringsSplit d.id '&').length ≠ 8 ∨ "" ∈ stringsSplit d.id '&') →
      (resourceKafkaAclStateImport quote d).err = none ∧
        (resourceKafkaAclStateImport quote d).result ≠ none := by
    intro h
    have hg2 := fun e => h ((importGuard_iff (stringsSplit d.id '&')).1 e)
    unfold resourceKafkaAclStateImport
    simp only [ResourceData.Id]
    rw [if_neg hg2]
    simp
  refine ⟨⟨?_, key d⟩, ⟨?_, key2⟩, key _ (Or.inl
    (show (stringsSplit "c1&User:bob&*&Topic&orders&Read&Allow" '&').length ≠ 8 by decide))⟩
  · intro h
    by_contra hc
    exact h.1 (key2 hc).1
  · intro h hc
    exact (key d hc).1 h.1

/-- C10: the importer never mis-parses an identifier built by Create. For any
eight values, importing the identifier built from them either fails or returns
exactly those values, and it fails if and only if one of the values is empty or
contains `&`. Create can succeed with an identifier the importer rejects: a
resource name `a&b` is such a case. -/
theorem import_never_misparses (quote : String → String) (d : ResourceData)
    (cluster_id principal host resource_type resource_name operation permission_type
      pattern_type : String) :
    ((resourceKafkaAclStateImport quote
          (d.SetId (sprintfKafkaAclId cluster_id
            ⟨principal, host, resource_type, resource_name, operation, permission_type,
              pattern_type⟩))).err ≠ none ∨
      resourceKafkaAclStateImport quote
          (d.SetId (sprintfKafkaAclId cluster_id
            ⟨principal, host, resource_type, resource_name, operation, permission_type,
              pattern_type⟩)) =
        { result := some [⟨sprintfKafkaAclId cluster_id
              ⟨principal, host, resource_type, resource_name, operation, permission_type,
                pattern_type⟩,
            cluster_id, principal, host, resource_type, resource_name, operation,
            permission_type, pattern_type⟩]
          err := none
          d := ⟨sprintfKafkaAclId cluster_id
              ⟨principal, host, resource_type, resource_name, operation, permission_type,
                pattern_type⟩,
            cluster_id, principal, host, resource_type, resource_name, operation,
            permission_type, pattern_type⟩ }) ∧
    ((resourceKafkaAclStateImport quote
          (d.SetId (sprintfKafkaAclId cluster_id
            ⟨principal, host, resource_type, resource_name, operation, permission_type,
              pattern_type⟩))).err ≠ none ↔
      ∃ v ∈ [cluster_id, principal, host, resource_type, resource_name, operation,
        permission_type, pattern_type], v = "" ∨ '&' ∈ v.data) ∧
    ((doResourceKafkaAclCreate (constClient (.ok ⟨"RUNNING"⟩) (.ok []) none none)
          ⟨"", "c1", "User:bob", "*", "Topic", "a&b", "Read", "Allow", "LITERAL"⟩ ()).err = none ∧
      (resourceKafkaAclStateImport quote
          (doResourceKafkaAclCreate (constClient (.ok ⟨"RUNNING"⟩) (.ok []) none none)
            ⟨"", "c1", "User:bob", "*", "Topic", "a&b", "Read", "Allow", "LITERAL"⟩ ()).d).err
        ≠ none) := by
  by_cases hbad : ∃ v ∈ idValues cluster_id
      ⟨principal, host, resource_type, resource_name, operation, permission_type, pattern_type⟩,
      v = "" ∨ '&' ∈ v.data
  · obtain ⟨msg, hm⟩ := resourceKafkaAclStateImport_sprintf_err quote d cluster_id _ hbad
    refine ⟨Or.inl (by rw [hm]; simp), ⟨fun _ => hbad, fun _ => by rw [hm]; simp⟩, ?_⟩
    refine ⟨by decide, ?_⟩
    obtain ⟨msg2, hm2⟩ := resourceKafkaAclStateImport_of_guard quote
      (doResourceKafkaAclCreate (constClient (.ok ⟨"RUNNING"⟩) (.ok []) none none)
        ⟨"", "c1", "User:bob", "*", "Topic", "a&b", "Read", "Allow", "LITERAL"⟩ ()).d
      (Or.inl (by decide))
    rw [hm2]
    simp
  · have hne : "" ∉ idValues cluster_id
        ⟨principal, host, resource_type, resource_name, operation, permission_type,
          pattern_type⟩ := fun h => hbad ⟨"", h, Or.inl rfl⟩
    have hamp : ∀ v ∈ idValues cluster_id
        ⟨principal, host, resource_type, resource_name, operation, permission_type,
          pattern_type⟩, '&' ∉ v.data := fun v hv h => hbad ⟨v, hv, Or.inr h⟩
    have hok := resourceKafkaAclStateImport_sprintf_ok quote d cluster_id _ hne hamp
    refine ⟨Or.inr hok, ⟨fun h => absurd (by rw [hok]) h, fun h => absurd h hbad⟩, ?_⟩
    refine ⟨by decide, ?_⟩
    obtain ⟨msg2, hm2⟩ := resourceKafkaAclStateImport_of_guard quote
      (doResourceKafkaAclCreate (constClient (.ok ⟨"RUNNING"⟩) (.ok []) none none)
        ⟨"", "c1", "User:bob", "*", "Topic", "a&b", "Read", "Allow", "LITERAL"⟩ ()).d
      (Or.inl (by decide))
    rw [hm2]
    simp

/-! ## Create -/

/-- C3: Create succeeds and sets the identifier by the encode rule. When
ReadCluster answers status RUNNING without error, ReadKafkaAcls then answers an
empty list without error and CreateKafkaAcl then answers no error, Create
returns no error, has called ReadCluster, ReadKafkaAcls and CreateKafkaAcl once
each, in that order and for the declared cluster_id, and leaves the data
unchanged except for the identifier, which is
cluster_id&principal&host&resource_type&resource_name&operation&permission_type&pattern_type. -/
theorem create_succeeds_sets_identifier {σ : Type} (client : KafkaAclAPIClient σ)
    (d : ResourceData) (s s1 s2 s3 : σ) (cluster : Cluster)
    (h1 : client.ReadCluster s d.cluster_id = (.ok cluster, s1))
    (hrun : cluster.ClusterStatus = "RUNNING")
    (h2 : client.ReadKafkaAcls s1 d.cluster_id ⟨(parseResourceData d).2⟩ = (.ok [], s2))
    (h3 : client.CreateKafkaAcl s2 d.cluster_id ⟨(parseResourceData d).2⟩ = (none, s3)) :
    doResourceKafkaAclCreate client d s =
      { err := none
        d := { d with id := d.cluster_id ++ "&" ++ d.principal ++ "&" ++ d.host ++ "&" ++
          d.resource_type ++ "&" ++ d.resource_name ++ "&" ++ d.operation ++ "&" ++
          d.permission_type ++ "&" ++ d.pattern_type }
        client := s3
        calls := [RemoteCall.ReadCluster d.cluster_id,
          RemoteCall.ReadKafkaAcls d.cluster_id ⟨(parseResourceData d).2⟩,
          RemoteCall.CreateKafkaAcl d.cluster_id ⟨(parseResourceData d).2⟩] } := by
  rw [parseResourceData_eq] at h2 h3
  unfold doResourceKafkaAclCreate
  simp only [parseResourceData_eq, jsonMarshal, h1, hrun, h2, h3]
  simp [ResourceData.SetId, sprintfKafkaAclId]

/-- C3 at cluster c1 with the ACL (User:bob, *, Topic, orders, Read, Allow,
LITERAL): the identifier is `c1&User:bob&*&Topic&orders&Read&Allow&LITERAL`. -/
theorem create_succeeds_sets_identifier_witness :
    doResourceKafkaAclCreate (constClient (.ok ⟨"RUNNING"⟩) (.ok []) none none) bobData () =
      { err := none
        d := { bobData with id := "c1&User:bob&*&Topic&orders&Read&Allow&LITERAL" }
        client := ()
        calls := [RemoteCall.ReadCluster "c1", RemoteCall.ReadKafkaAcls "c1" ⟨bobAcl⟩,
          RemoteCall.CreateKafkaAcl "c1" ⟨bobAcl⟩] } :=
  create_succeeds_sets_identifier (constClient (.ok ⟨"RUNNING"⟩) (.ok []) none none) bobData
    () () () () ⟨"RUNNING"⟩ rfl rfl rfl rfl

/-- C4: Create refuses a cluster that is not running. When ReadCluster answers,
without error, a status other than RUNNING, Create returns the error
`[Error] Cluster <cluster_id> is not RUNNING. Currently in <status> state`,
whose message contains the cluster id and the status; the only remote call made
is ReadCluster (no ReadKafkaAcls, no CreateKafkaAcl), and the data, identifier
included, is unchanged. -/
theorem create_refuses_not_running {σ : Type} (client : KafkaAclAPIClient σ)
    (d : ResourceData) (s s1 : σ) (cluster : Cluster)
    (h1 : client.ReadCluster s d.cluster_id = (.ok cluster, s1))
    (hstatus : cluster.ClusterStatus ≠ "RUNNING") :
    doResourceKafkaAclCreate client d s =
      { err := some ("[Error] Cluster " ++ d.cluster_id ++ " is not RUNNING. Currently in " ++
          cluster.ClusterStatus ++ " state")
        d := d
        client := s1
        calls := [RemoteCall.ReadCluster d.cluster_id] } ∧
    d.cluster_id.data <:+: ("[Error] Cluster " ++ d.cluster_id ++
      " is not RUNNING. Currently in " ++ cluster.ClusterStatus ++ " state").data ∧
    cluster.ClusterStatus.data <:+: ("[Error] Cluster " ++ d.cluster_id ++
      " is not RUNNING. Currently in " ++ cluster.ClusterStatus ++ " state").data := by
  refine ⟨?_, ?_, ?_⟩
  · unfold doResourceKafkaAclCreate
    simp only [parseResourceData_eq, h1]
    simp [hstatus]
  · refine ⟨"[Error] Cluster ".data,
      (" is not RUNNING. Currently in " ++ cluster.ClusterStatus ++ " state").data, ?_⟩
    simp [String.data_append]
  · refine ⟨("[Error] Cluster " ++ d.cluster_id ++ " is not RUNNING. Currently in ").data,
      " state".data, ?_⟩
    simp [String.data_append]

/-- C4 at cluster c1 reported as PROVISIONING. -/
theorem create_refuses_not_running_witness :
    doResourceKafkaAclCreate (constClient (.ok ⟨"PROVISIONING"⟩) (.ok []) none none)
        bobData () =
      { err := some "[Error] Cluster c1 is not RUNNING. Currently in PROVISIONING state"
        d := bobData
        client := ()
        calls := [RemoteCall.ReadCluster "c1"] } :=
  (create_refuses_not_running (constClient (.ok ⟨"PROVISIONING"⟩) (.ok []) none none)
    bobData () () ⟨"PROVISIONING"⟩ rfl (by decide)).1

/-- C5: the duplicate guard of Create. When ReadCluster answers RUNNING and
ReadKafkaAcls then answers, without error, a list with at least one entry,
Create returns the `already exists, use terraform import` error; the remote
calls made are ReadCluster and ReadKafkaAcls only (no CreateKafkaAcl), and the
data, identifier included, is unchanged. -/
theorem create_duplicate_guard {σ : Type} (client : KafkaAclAPIClient σ)
    (d : ResourceData) (s s1 s2 : σ) (cluster : Cluster) (remoteAcls : List KafkaAcl)
    (h1 : client.ReadCluster s d.cluster_id = (.ok cluster, s1))
    (hrun : cluster.ClusterStatus = "RUNNING")
    (h2 : client.ReadKafkaAcls s1 d.cluster_id ⟨(parseResourceData d).2⟩ = (.ok remoteAcls, s2))
    (hlen : remoteAcls.length ≥ 1) :
    doResourceKafkaAclCreate client d s =
      { err := some ("[Error] Error creating kafka ACL: the resource already exists, " ++
          "use terraform import instead.")
        d := d
        client := s2
        calls := [RemoteCall.ReadCluster d.cluster_id,
          RemoteCall.ReadKafkaAcls d.cluster_id ⟨(parseResourceData d).2⟩] } ∧
    ∀ clusterID data,
      RemoteCall.CreateKafkaAcl clusterID data ∉ (doResourceKafkaAclCreate client d s).calls := by
  have hpos : remoteAcls.length > 0 := hlen
  have key : doResourceKafkaAclCreate client d s =
      { err := some ("[Error] Error creating kafka ACL: the resource already exists, " ++
          "use terraform import instead.")
        d := d
        client := s2
        calls := [RemoteCall.ReadCluster d.cluster_id,
          RemoteCall.ReadKafkaAcls d.cluster_id ⟨(parseResourceData d).2⟩] } := by
    rw [parseResourceData_eq] at h2
    unfold doResourceKafkaAclCreate
    simp only [parseResourceData_eq, jsonMarshal, h1, hrun, h2]
    simp [hpos]
  refine ⟨key, ?_⟩
  intro clusterID data
  rw [key]
  simp

/-- C5 at cluster c1 where the ACL already exists remotely. -/
theorem create_duplicate_guard_witness :
    doResourceKafkaAclCreate (constClient (.ok ⟨"RUNNING"⟩) (.ok [bobAcl]) none none)
        bobData () =
      { err := some ("[Error] Error creating kafka ACL: the resource already exists, " ++
          "use terraform import instead.")
        d := bobData
        client := ()
        calls := [RemoteCall.ReadCluster "c1", RemoteCall.ReadKafkaAcls "c1" ⟨bobAcl⟩] } :=
  (create_duplicate_guard (constClient (.ok ⟨"RUNNING"⟩) (.ok [bobAcl]) none none)
    bobData () () () ⟨"RUNNING"⟩ [bobAcl] rfl rfl rfl (by decide)).1

/-! ## Read -/

/-- C6: Read reconciles by clearing exactly on absence. When ReadCluster
answers RUNNING without error and ReadKafkaAcls then answers a list without
error, Read returns no error; if the list is empty the identifier and all eight
fields are afterwards the empty string, and if the list has at least one entry
the identifier and all eight fields are unchanged. -/
theorem read_clears_exactly_on_absence {σ : Type} (client : KafkaAclAPIClient σ)
    (d : ResourceData) (s s1 s2 : σ) (cluster : Cluster) (remoteAcls : List KafkaAcl)
    (h1 : client.ReadCluster s d.cluster_id = (.ok cluster, s1))
    (hrun : cluster.ClusterStatus = "RUNNING")
    (h2 : client.ReadKafkaAcls s1 d.cluster_id ⟨(parseResourceData d).2⟩ =
      (.ok remoteAcls, s2)) :
    (doResourceKafkaAclRead client d s).err = none ∧
    (remoteAcls = [] →
      (doResourceKafkaAclRead client d s).d = ⟨"", "", "", "", "", "", "", "", ""⟩) ∧
    (remoteAcls.length ≥ 1 → (doResourceKafkaAclRead client d s).d = d) := by
  rw [parseResourceData_eq] at h2
  unfold doResourceKafkaAclRead
  simp only [parseResourceData_eq, jsonMarshal, h1, hrun, h2]
  cases remoteAcls with
  | nil => simp [removeKafkaAclResource_eq, clearedData]
  | cons a rest => simp

/-- C6 at the stored example resource: cleared when the remote list is empty,
untouched when the remote list holds the ACL. -/
theorem read_clears_exactly_on_absence_witness :
    ((doResourceKafkaAclRead (constClient (.ok ⟨"RUNNING"⟩) (.ok []) none none)
        bobStored ()).err = none ∧
      (doResourceKafkaAclRead (constClient (.ok ⟨"RUNNING"⟩) (.ok []) none none)
        bobStored ()).d = ⟨"", "", "", "", "", "", "", "", ""⟩) ∧
    ((doResourceKafkaAclRead (constClient (.ok ⟨"RUNNING"⟩) (.ok [bobAcl]) none none)
        bobStored ()).err = none ∧
      (doResourceKafkaAclRead (constClient (.ok ⟨"RUNNING"⟩) (.ok [bobAcl]) none none)
        bobStored ()).d = bobStored) :=
  ⟨⟨(read_clears_exactly_on_absence (constClient (.ok ⟨"RUNNING"⟩) (.ok []) none none)
        bobStored () () () ⟨"RUNNING"⟩ [] rfl rfl rfl).1,
      (read_clears_exactly_on_absence (constClient (.ok ⟨"RUNNING"⟩) (.ok []) none none)
        bobStored () () () ⟨"RUNNING"⟩ [] rfl rfl rfl).2.1 rfl⟩,
    ⟨(read_clears_exactly_on_absence (constClient (.ok ⟨"RUNNING"⟩) (.ok [bobAcl]) none none)
        bobStored () () () ⟨"RUNNING"⟩ [bobAcl] rfl rfl rfl).1,
      (read_clears_exactly_on_absence (constClient (.ok ⟨"RUNNING"⟩) (.ok [bobAcl]) none none)
        bobStored () () () ⟨"RUNNING"⟩ [bobAcl] rfl rfl rfl).2.2 (by decide)⟩⟩

/-! ## Delete -/

/-- C7: Delete is independent of cluster status. For any client, whatever its
ReadCluster and ReadKafkaAcls would answer, when DeleteKafkaAcl answers no error
Delete returns no error and leaves the identifier and all eight fields empty;
the only remote call made is one DeleteKafkaAcl with the stored cluster_id (no
ReadCluster, no ReadKafkaAcls). -/
theorem delete_ignores_cluster_status {σ : Type} (client : KafkaAclAPIClient σ)
    (d : ResourceData) (s s1 : σ)
    (h : client.DeleteKafkaAcl s d.cluster_id ⟨(parseResourceData d).2⟩ = (none, s1)) :
    doResourceKafkaAclDelete client d s =
      { err := none
        d := ⟨"", "", "", "", "", "", "", "", ""⟩
        client := s1
        calls := [RemoteCall.DeleteKafkaAcl d.cluster_id ⟨(parseResourceData d).2⟩] } := by
  rw [parseResourceData_eq] at h
  unfold doResourceKafkaAclDelete
  simp only [parseResourceData_eq, jsonMarshal, h]
  simp [removeKafkaAclResource_eq, clearedData]

/-- C7 at the stored example resource, with a client whose ReadCluster reports
STOPPED and one whose ReadCluster fails. -/
theorem delete_ignores_cluster_status_witness :
    doResourceKafkaAclDelete (constClient (.ok ⟨"STOPPED"⟩) (.ok [bobAcl]) none none)
        bobStored () =
      { err := none
        d := ⟨"", "", "", "", "", "", "", "", ""⟩
        client := ()
        calls := [RemoteCall.DeleteKafkaAcl "c1" ⟨bobAcl⟩] } ∧
    doResourceKafkaAclDelete (constClient (.error "unreachable") (.error "unreachable")
        none none) bobStored () =
      { err := none
        d := ⟨"", "", "", "", "", "", "", "", ""⟩
        client := ()
        calls := [RemoteCall.DeleteKafkaAcl "c1" ⟨bobAcl⟩] } :=
  ⟨delete_ignores_cluster_status (constClient (.ok ⟨"STOPPED"⟩) (.ok [bobAcl]) none none)
      bobStored () () rfl,
    delete_ignores_cluster_status (constClient (.error "unreachable") (.error "unreachable")
      none none) bobStored () () rfl⟩

/-! ## Remote calls and failure -/

/-- C8, as stated, fails: a successful Create on the example resource performs
three remote calls (ReadCluster, ReadKafkaAcls, CreateKafkaAcl), not at most
two. -/
theorem create_call_count_exceeds_two :
    (doResourceKafkaAclCreate (constClient (.ok ⟨"RUNNING"⟩) (.ok []) none none)
        bobData ()).calls =
      [RemoteCall.ReadCluster "c1", RemoteCall.ReadKafkaAcls "c1" ⟨bobAcl⟩,
        RemoteCall.CreateKafkaAcl "c1" ⟨bobAcl⟩] ∧
    ¬ (1 ≤ (doResourceKafkaAclCreate (constClient (.ok ⟨"RUNNING"⟩) (.ok []) none none)
          bobData ()).callCount ∧
      (doResourceKafkaAclCreate (constClient (.ok ⟨"RUNNING"⟩) (.ok []) none none)
          bobData ()).callCount ≤ 2) := by
  decide

/-- C8, amended: for every stored state and every client behaviour, Create
performs between one and three remote calls, a prefix of the sequence
ReadCluster, ReadKafkaAcls, CreateKafkaAcl, and exactly three when it returns
no error; Read performs one or two, a prefix of ReadCluster, ReadKafkaAcls;
Delete performs exactly one, DeleteKafkaAcl. -/
theorem remote_call_bounds {σ : Type} (client : KafkaAclAPIClient σ)
    (d : ResourceData) (s : σ) :
    (1 ≤ (doResourceKafkaAclCreate client d s).callCount ∧
      (doResourceKafkaAclCreate client d s).callCount ≤ 3 ∧
      ((doResourceKafkaAclCreate client d s).err = none →
        (doResourceKafkaAclCreate client d s).callCount = 3) ∧
      (doResourceKafkaAclCreate client d s).calls <+:
        [RemoteCall.ReadCluster d.cluster_id,
          RemoteCall.ReadKafkaAcls d.cluster_id ⟨(parseResourceData d).2⟩,
          RemoteCall.CreateKafkaAcl d.cluster_id ⟨(parseResourceData d).2⟩]) ∧
    (1 ≤ (doResourceKafkaAclRead client d s).callCount ∧
      (doResourceKafkaAclRead client d s).callCount ≤ 2 ∧
      (doResourceKafkaAclRead client d s).calls <+:
        [RemoteCall.ReadCluster d.cluster_id,
          RemoteCall.ReadKafkaAcls d.cluster_id ⟨(parseResourceData d).2⟩]) ∧
    ((doResourceKafkaAclDelete client d s).callCount = 1 ∧
      (doResourceKafkaAclDelete client d s).calls =
        [RemoteCall.DeleteKafkaAcl d.cluster_id ⟨(parseResourceData d).2⟩]) := by
  obtain ⟨hc1, hc2, hc3⟩ := doResourceKafkaAclCreate_shape client d s
  obtain ⟨_, hr2, hr3⟩ := doResourceKafkaAclRead_shape client d s
  obtain ⟨_, hd2⟩ := doResourceKafkaAclDelete_shape client d s
  refine ⟨⟨?_, ?_, ?_, hc3⟩, ⟨?_, ?_, hr3⟩, ?_, hd2⟩
  · exact List.length_pos.2 hc2
  · simpa [Outcome.callCount] using hc3.length_le
  · intro he
    rcases hc1 with h | h
    · exact absurd he h.1
    · exact h.2
  · exact List.length_pos.2 hr2
  · simpa [Outcome.callCount] using hr3.length_le
  · simp [Outcome.callCount, hd2]

/-- C9: atomicity on error. Whenever Create, Read or Delete returns an error,
the identifier and all eight stored fields are what they were before the call;
whenever the importer returns an error it has changed nothing in the data and
returns no resource data. -/
theorem error_leaves_data_unchanged {σ : Type} (quote : String → String)
    (client : KafkaAclAPIClient σ) (d : ResourceData) (s : σ) :
    ((doResourceKafkaAclCreate client d s).err ≠ none →
      (doResourceKafkaAclCreate client d s).d = d) ∧
    ((doResourceKafkaAclRead client d s).err ≠ none →
      (doResourceKafkaAclRead client d s).d = d) ∧
    ((doResourceKafkaAclDelete client d s).err ≠ none →
      (doResourceKafkaAclDelete client d s).d = d) ∧
    ((resourceKafkaAclStateImport quote d).err ≠ none →
      (resourceKafkaAclStateImport quote d).d = d ∧
        (resourceKafkaAclStateImport quote d).result = none) := by
  refine ⟨?_, (doResourceKafkaAclRead_shape client d s).1,
    (doResourceKafkaAclDelete_shape client d s).1, ?_⟩
  · intro he
    rcases (doResourceKafkaAclCreate_shape client d s).1 with h | h
    · exact h.2
    · exact absurd h.1 he
  · intro he
    by_cases hg : (stringsSplit d.id '&').length ≠ 8 ∨ "" ∈ stringsSplit d.id '&'
    · obtain ⟨msg, hm⟩ := resourceKafkaAclStateImport_of_guard quote d hg
      rw [hm]
      exact ⟨rfl, rfl⟩
    · exfalso
      apply he
      have hg2 := fun e => hg ((importGuard_iff (stringsSplit d.id '&')).1 e)
      unfold resourceKafkaAclStateImport
      simp only [ResourceData.Id]
      rw [if_neg hg2]

/-- C9 at the stored example resource, on one failing path of each operation:
a ReadCluster failure in Create, a ReadKafkaAcls failure in Read, a
DeleteKafkaAcl failure in Delete, and a seven-piece identifier in the
importer. -/
theorem error_leaves_data_unchanged_witness :
    (doResourceKafkaAclCreate (constClient (.error "timeout") (.ok []) none none)
        bobStored ()).d = bobStored ∧
    (doResourceKafkaAclRead (constClient (.ok ⟨"RUNNING"⟩) (.error "timeout") none none)
        bobStored ()).d = bobStored ∧
    (doResourceKafkaAclDelete (constClient (.ok ⟨"RUNNING"⟩) (.ok [bobAcl]) none
        (some "timeout")) bobStored ()).d = bobStored ∧
    (resourceKafkaAclStateImport id
        (clearedData.SetId "c1&User:bob&*&Topic&orders&Read&Allow")).d =
      clearedData.SetId "c1&User:bob&*&Topic&orders&Read&Allow" :=
  ⟨(error_leaves_data_unchanged id (constClient (.error "timeout") (.ok []) none none)
      bobStored ()).1 (by decide),
    (error_leaves_data_unchanged id (constClient (.ok ⟨"RUNNING"⟩) (.error "timeout") none none)
      bobStored ()).2.1 (by decide),
    (error_leaves_data_unchanged id (constClient (.ok ⟨"RUNNING"⟩) (.ok [bobAcl]) none
      (some "timeout")) bobStored ()).2.2.1 (by decide),
    ((error_leaves_data_unchanged id (constClient (.ok ⟨"RUNNING"⟩) (.ok []) none none)
      (clearedData.SetId "c1&User:bob&*&Topic&orders&Read&Allow") ()).2.2.2 (by decide)).1⟩

end Instaclustr
